import Mathlib

/-!
Verification of the analytical core of the InfraNodus GEO system against its
natural-language specification.

The development shallowly embeds the scoring, classification, retrieval and
answer-composition logic of `cypher_queries.py`, `graph_rag.py`,
`infranodus_client.py` and `import_pipeline.py`:
pure Python functions become Lean functions, the Cypher queries become
functions over an explicit graph-state record, question/answer strings become
`List Char`, and all numeric scores are exact rationals (`ℚ`).
-/

namespace Geo

/-! ### String primitives (embedding of the Python `str` operations used) -/

/-- Embedding of Python `str.lower()` on the ASCII question strings used here. -/
def toLowerStr (s : List Char) : List Char := s.map Char.toLower

/-- Whether `pat` occurs at the start of `s` (helper for substring search). -/
def listStartsWith : List Char → List Char → Bool
  | [], _ => true
  | _ :: _, [] => false
  | a :: as, b :: bs => a == b && listStartsWith as bs

/-- Embedding of the Python `pat in s` substring test. -/
def containsSub (pat : List Char) : List Char → Bool
  | [] => pat.isEmpty
  | c :: rest => listStartsWith pat (c :: rest) || containsSub pat rest

/-- Accumulator-style worker for `splitWs`. -/
def splitWsAux : List Char → List Char → List (List Char)
  | [], cur => if cur.isEmpty then [] else [cur.reverse]
  | c :: rest, cur =>
    if c.isWhitespace then
      if cur.isEmpty then splitWsAux rest [] else cur.reverse :: splitWsAux rest []
    else
      splitWsAux rest (c :: cur)

/-- Embedding of Python `str.split()` (split on whitespace runs, dropping empties). -/
def splitWs (s : List Char) : List (List Char) := splitWsAux s []

/-- Embedding of Python `str.strip()`. -/
def stripWs (s : List Char) : List Char :=
  ((s.dropWhile Char.isWhitespace).reverse.dropWhile Char.isWhitespace).reverse

/-- Embedding of Python `str.replace(pat, rep)` (leftmost, non-overlapping). -/
def replaceSub (pat rep : List Char) : List Char → List Char
  | [] => []
  | c :: rest =>
    if listStartsWith pat (c :: rest) && !pat.isEmpty then
      rep ++ replaceSub pat rep (List.drop (pat.length - 1) rest)
    else
      c :: replaceSub pat rep rest
termination_by s => s.length
decreasing_by
  · simp only [List.length_drop, List.length_cons]
    omega
  · simp only [List.length_cons]
    omega

/-- Embedding of Python `str.split(sep)` for a non-empty separator (keeps empties). -/
def splitOnSub (sep : List Char) : List Char → List (List Char)
  | [] => [[]]
  | c :: rest =>
    if listStartsWith sep (c :: rest) && !sep.isEmpty then
      [] :: splitOnSub sep (List.drop (sep.length - 1) rest)
    else
      match splitOnSub sep rest with
      | [] => [[c]]
      | w :: ws => (c :: w) :: ws
termination_by s => s.length
decreasing_by
  · simp only [List.length_drop, List.length_cons]
    omega
  · simp only [List.length_cons]
    omega

/-- The apostrophe character, used in the fixed fallback answer texts. -/
def apos : Char := Char.ofNat 39

/-! ### Question classification (`graph_rag.py`, `GraphRAG.classify_question`) -/

/-- The seven question categories of `graph_rag.QuestionType`. -/
inductive QuestionType where
  | feature
  | pain_point
  | product
  | comparison
  | evidence
  | how_to
  | recommendation
deriving DecidableEq

/-- Whether any phrase of the list occurs in `q` (`any(word in q_lower ...)`). -/
def anyPhraseIn (phrases : List (List Char)) (q : List Char) : Bool :=
  phrases.any fun p => containsSub p q

/-- The FEATURE phrase set of `classify_question`. -/
def featurePhrases : List (List Char) :=
  ["what is".data, "explain".data, "describe".data]

/-- The PAIN_POINT phrase set of `classify_question`. -/
def painPointPhrases : List (List Char) :=
  ["solve".data, "fix".data, "relieve".data, "help with".data, "pain".data]

/-- The COMPARISON phrase set of `classify_question`. -/
def comparisonPhrases : List (List Char) :=
  ["compare".data, "vs".data, "versus".data, "difference between".data]

/-- The EVIDENCE phrase set of `classify_question`. -/
def evidencePhrases : List (List Char) :=
  ["evidence".data, "prove".data, "support".data, "research".data, "study".data]

/-- The HOW_TO phrase set of `classify_question`. -/
def howToPhrases : List (List Char) :=
  ["how does".data, "how to".data, "how can".data]

/-- The RECOMMENDATION phrase set of `classify_question`. -/
def recommendationPhrases : List (List Char) :=
  ["recommend".data, "best".data, "which".data, "should i".data, "suggest".data]

/-- Embedding of `GraphRAG.classify_question`: lowercase the question, then test
the phrase sets in the fixed order, first match winning, defaulting to PRODUCT. -/
def classify_question (question : List Char) : QuestionType :=
  let q := toLowerStr question
  if anyPhraseIn featurePhrases q then .feature
  else if anyPhraseIn painPointPhrases q then .pain_point
  else if anyPhraseIn comparisonPhrases q then .comparison
  else if anyPhraseIn evidencePhrases q then .evidence
  else if anyPhraseIn howToPhrases q then .how_to
  else if anyPhraseIn recommendationPhrases q then .recommendation
  else .product

example : classify_question ("What is the best way to fix back pain?".data) = .feature := by
  decide

example : classify_question ("Which mattress is best for hot sleepers?".data)
    = .recommendation := by decide

/-! ### Graph-RAG data model (`graph_rag.py` dataclasses and query rows) -/

/-- One evidence entry of a retrieved row (`collect({claim, source, url, ...})`).
Fields that the underlying graph may leave null are `Option`s. -/
structure EvidenceRow where
  source : Option (List Char)
  url : Option (List Char)
  credibility : Option ℚ
  quote : Option (List Char)
deriving DecidableEq

/-- Row shape read by `generate_feature_answer` (result of the feature query). -/
structure FeatureData where
  feature : List Char
  description : Option (List Char)
  relieves : List (List Char)
  products : List (List Char)
  evidence : List EvidenceRow
deriving DecidableEq

/-- One feature/product entry of the `solutions` list of a pain-point row. -/
structure SolutionRow where
  feature : Option (List Char)
  product : Option (List Char)
deriving DecidableEq

/-- Row shape read by `generate_pain_point_answer` (result of the pain-point query). -/
structure PainData where
  pain_point : List Char
  description : Option (List Char)
  severity : Option ℚ
  reported_cases : Option ℚ
  solutions : List SolutionRow
  evidence : List EvidenceRow
deriving DecidableEq

/-- Row shape read by `generate_comparison_answer`
(result of `compare_product_features`). -/
structure ComparisonData where
  unique_to_us : List (List Char)
  unique_to_competitor : List (List Char)
  shared_features : List (List Char)
  our_advantage_count : ℕ
  their_advantage_count : ℕ
deriving DecidableEq

/-- The `Citation` dataclass of `graph_rag.py`. -/
structure Citation where
  source : List Char
  url : Option (List Char)
  credibility_score : ℚ
  quote : Option (List Char)
deriving DecidableEq

/-- The `Answer` dataclass of `graph_rag.py`. -/
structure Answer where
  question : List Char
  answer_text : List Char
  citations : List Citation
  confidence : ℚ
  graph_path : List (List Char)
deriving DecidableEq

/-- The graph-database oracle behind the four retrieval queries: each maps the
query parameters to the first result row, or `none` when the query returns no
row (the empty dict / empty result list of the Python code). -/
structure GraphDB where
  featureQuery : List Char → Option FeatureData
  painQuery : List Char → Option PainData
  comparisonQuery : List Char → List Char → Option ComparisonData
  evidenceQuery : List Char → Option FeatureData

/-! ### Graph retrieval (`graph_rag.py` retrieval methods) -/

/-- First keyword whose query yields a row, returning that row
(the `for keyword in keywords: ... if results: return results[0]` loop). -/
def firstHit (f : List Char → Option α) : List (List Char) → Option α
  | [] => none
  | k :: rest =>
    match f k with
    | some r => some r
    | none => firstHit f rest

/-- Embedding of `GraphRAG.retrieve_feature_info`: keywords are the
whitespace-separated words of the question of length > 3, tried in order. -/
def retrieve_feature_info (db : GraphDB) (question : List Char) : Option FeatureData :=
  firstHit db.featureQuery ((splitWs question).filter fun w => 3 < w.length)

/-- Embedding of `GraphRAG.retrieve_pain_point_solution`: same keyword scheme as
`retrieve_feature_info`, against the pain-point query. -/
def retrieve_pain_point_solution (db : GraphDB) (question : List Char) : Option PainData :=
  firstHit db.painQuery ((splitWs question).filter fun w => 3 < w.length)

/-- Embedding of `GraphRAG.retrieve_product_comparison`. -/
def retrieve_product_comparison (db : GraphDB) (p1 p2 : List Char) : Option ComparisonData :=
  db.comparisonQuery p1 p2

/-- Embedding of `GraphRAG.retrieve_evidence_for_claim` (first row of
`verify_claim_with_evidence` for the given keyword, or nothing). -/
def retrieve_evidence_for_claim (db : GraphDB) (kw : List Char) : Option FeatureData :=
  db.evidenceQuery kw

/-! ### Answer composition (`graph_rag.py` generate_* methods) -/

/-- Python truthiness of an optional string (the source-field guard). -/
def truthyStr : Option (List Char) → Bool
  | none => false
  | some s => !s.isEmpty

/-- Join a list of strings with a separator (Python `sep.join(...)`). -/
def joinSep (sep : List Char) (parts : List (List Char)) : List Char :=
  List.intercalate sep parts

/-- Decimal rendering of a rational, standing in for Python number formatting
inside f-strings (content-irrelevant to every claim proved here). -/
def ratStr (x : ℚ) : List Char := (toString x).data

/-- Decimal rendering of a natural number inside f-strings. -/
def natStr (n : ℕ) : List Char := (toString n).data

/-- The fixed no-data fallback text of `generate_feature_answer`. -/
def featureFallbackText : List Char :=
  "I don".data ++ [apos] ++ "t have information about that feature in the knowledge graph.".data

/-- Citations extracted by `generate_feature_answer` (entries with truthy source). -/
def featureCitations (d : FeatureData) : List Citation :=
  d.evidence.filterMap fun ev =>
    match ev.source with
    | some s => if s.isEmpty then none else
        some ⟨s, ev.url, ev.credibility.getD (1/2), ev.quote⟩
    | none => none

/-- Embedding of `GraphRAG.generate_feature_answer`. -/
def generate_feature_answer (data : Option FeatureData) : Answer :=
  match data with
  | none => ⟨[], featureFallbackText, [], 0, []⟩
  | some d =>
    let part1 := d.feature ++ " is a feature that ".data ++
      d.description.getD ("provides comfort and support".data) ++ ".".data
    let parts1 := [part1]
    let parts2 := if d.relieves.isEmpty then parts1 else
      parts1 ++ ["It helps relieve ".data ++ joinSep (", ".data) (d.relieves.take 3) ++ ".".data]
    let parts3 := if d.products.isEmpty then parts2 else
      parts2 ++
        ["You can find this feature in ".data ++ joinSep (", ".data) (d.products.take 3) ++ ".".data]
    let citations := featureCitations d
    let path := ["Feature".data] ++
      (if d.relieves.isEmpty then [] else ["PainPoint".data]) ++
      (if d.products.isEmpty then [] else ["Product".data]) ++
      (if citations.isEmpty then [] else ["Claim".data, "Evidence".data])
    ⟨[], joinSep (" ".data) parts3, citations.take 3,
      min 1 ((citations.length : ℚ) * (3/10) + 4/10), path⟩

/-- The fixed no-data fallback text of `generate_pain_point_answer`. -/
def painFallbackText : List Char :=
  "I don".data ++ [apos] ++ "t have specific solutions for that issue in the knowledge graph.".data

/-- Citations extracted by `generate_pain_point_answer` (quote always dropped). -/
def painCitations (d : PainData) : List Citation :=
  d.evidence.filterMap fun ev =>
    match ev.source with
    | some s => if s.isEmpty then none else
        some ⟨s, ev.url, ev.credibility.getD (1/2), none⟩
    | none => none

/-- Embedding of `GraphRAG.generate_pain_point_answer`. -/
def generate_pain_point_answer (data : Option PainData) : Answer :=
  match data with
  | none => ⟨[], painFallbackText, [], 0, []⟩
  | some d =>
    let severity := d.severity.getD 0
    let sevText := if 7 ≤ severity then "significant".data else "moderate".data
    let part1 := d.pain_point ++ " is a ".data ++ sevText ++ " issue (severity: ".data ++
      ratStr severity ++ "/10).".data
    let parts1 := [part1]
    let parts2 := if 0 < d.reported_cases.getD 0 then
      parts1 ++ ["It has been reported ".data ++ ratStr (d.reported_cases.getD 0) ++ " times.".data]
      else parts1
    let feats := (d.solutions.filterMap fun s =>
      if truthyStr s.feature then s.feature else none).take 3
    let prods := (d.solutions.filterMap fun s =>
      if truthyStr s.product then s.product else none).take 2
    let parts3 :=
      if d.solutions.isEmpty then parts2
      else if feats.isEmpty then parts2
      else
        parts2 ++ ["Solutions include: ".data ++ joinSep (", ".data) feats ++ ".".data] ++
          (if prods.isEmpty then [] else
            ["You can find these features in ".data ++ joinSep (" or ".data) prods ++ ".".data])
    let citations := painCitations d
    ⟨[], joinSep (" ".data) parts3, citations.take 3,
      min 1 ((d.solutions.length : ℚ) * (3/10) + (citations.length : ℚ) * (2/10) + 2/10),
      ["PainPoint".data, "Feature".data, "Product".data, "Evidence".data]⟩

/-- The fixed no-data fallback text of `generate_comparison_answer`. -/
def comparisonFallbackText : List Char :=
  "I don".data ++ [apos] ++ "t have enough information to compare those products.".data

/-- Embedding of `GraphRAG.generate_comparison_answer`. -/
def generate_comparison_answer (data : Option ComparisonData) : Answer :=
  match data with
  | none => ⟨[], comparisonFallbackText, [], 3/10, []⟩
  | some d =>
    if d.unique_to_us.isEmpty then ⟨[], comparisonFallbackText, [], 3/10, []⟩
    else
      let parts1 := ["Unique features: ".data ++ joinSep (", ".data) (d.unique_to_us.take 3) ++
        ".".data]
      let parts2 := if d.unique_to_competitor.isEmpty then parts1 else
        parts1 ++
          ["Competitor has: ".data ++ joinSep (", ".data) (d.unique_to_competitor.take 3) ++ ".".data]
      let parts3 := if d.shared_features.isEmpty then parts2 else
        parts2 ++ ["They share ".data ++ natStr d.shared_features.length ++
          " common features.".data]
      let parts4 :=
        if d.their_advantage_count < d.our_advantage_count then
          parts3 ++ ["Our product has ".data ++ natStr d.our_advantage_count ++
            " unique advantages vs ".data ++ natStr d.their_advantage_count ++
            " for the competitor.".data]
        else if d.our_advantage_count < d.their_advantage_count then
          parts3 ++ ["The competitor has ".data ++ natStr d.their_advantage_count ++
            " unique features vs ".data ++ natStr d.our_advantage_count ++ " for us.".data]
        else
          parts3 ++ ["Both products have similar feature counts.".data]
      ⟨[], joinSep (" ".data) parts4, [], 7/10, ["Product".data, "Feature".data]⟩

/-! ### The main RAG pipeline (`GraphRAG.answer_question`) -/

/-- The two comparison product-name candidates: lowercase, replace the vs
separator by the or separator, split on it, strip, keep names longer than 2. -/
def extractProducts (question : List Char) : List (List Char) :=
  ((splitOnSub (" or ".data)
      (replaceSub (" vs ".data) (" or ".data) (toLowerStr question))).map stripWs).filter
    fun p => 2 < p.length

/-- The fixed comparison malformed-input answer. -/
def comparisonSpecifyAnswer (question : List Char) : Answer :=
  ⟨question, "Please specify two products to compare.".data, [], 0, []⟩

/-- The final `else` fallback of `answer_question` (no handled category). -/
def unclassifiableFallback (question : List Char) : Answer :=
  ⟨question, "I".data ++ [apos] ++ "m not sure how to answer that type of question yet.".data,
    [], 2/10, []⟩

/-- Seed keywords of the EVIDENCE branch of `answer_question`
(words of length > 4, in order). -/
def evidenceKeywords (question : List Char) : List (List Char) :=
  (splitWs question).filter fun w => 4 < w.length

/-- Embedding of `GraphRAG.answer_question`: classify, dispatch to the branch
of the matched category (the Python if/elif chain, in order), then overwrite
the `question` field of the produced answer. -/
def answer_question (db : GraphDB) (question : List Char) : Answer :=
  let t := classify_question question
  let a :=
    if t = QuestionType.feature ∨ t = QuestionType.how_to then
      generate_feature_answer (retrieve_feature_info db question)
    else if t = QuestionType.pain_point then
      generate_pain_point_answer (retrieve_pain_point_solution db question)
    else if t = QuestionType.comparison then
      match extractProducts question with
      | p1 :: p2 :: _ => generate_comparison_answer (retrieve_product_comparison db p1 p2)
      | _ => comparisonSpecifyAnswer question
    else if t = QuestionType.evidence then
      generate_feature_answer
        (retrieve_evidence_for_claim db ((evidenceKeywords question).headD []))
    else if t = QuestionType.recommendation ∨ t = QuestionType.product then
      generate_pain_point_answer (retrieve_pain_point_solution db question)
    else
      unclassifiableFallback question
  { a with question := question }

/-! ### Structure-hole detection (`cypher_queries.py`, `find_structure_holes`) -/

/-- A `TopicCluster` node: internal node id, name, modularity, size. -/
structure TopicCluster where
  id : ℕ
  name : List Char
  modularity : ℚ
  size : ℚ
deriving DecidableEq

/-- A `Keyword` node with its betweenness and the id of the `TopicCluster` it
points to through `BELONGS_TO`. -/
structure Keyword where
  name : List Char
  betweenness : ℚ
  cluster : ℕ
deriving DecidableEq

/-- The graph state seen by `find_structure_holes`: the `TopicCluster` nodes,
the `Keyword` nodes with their `BELONGS_TO` edges, and the (undirected)
`BRIDGES` relationships between clusters, by node id. -/
structure ClusterGraph where
  clusters : List TopicCluster
  keywords : List Keyword
  bridges : List (ℕ × ℕ)

/-- Whether a `BRIDGES` relationship exists between the two cluster ids
(the undirected `OPTIONAL MATCH (tc1)-[:BRIDGES]-(tc2)`). -/
def hasBridge (g : ClusterGraph) (a b : ℕ) : Bool :=
  g.bridges.any fun p => (p.1 = a && p.2 = b) || (p.1 = b && p.2 = a)

/-- The bridge penalty: `1.0` when no `BRIDGES` relationship exists, else `0.3`. -/
def bridge_penalty (g : ClusterGraph) (a b : ℕ) : ℚ :=
  if hasBridge g a b then 3/10 else 1

/-- The structure-hole opportunity score between two clusters:
`bridge_penalty * ((mod1 + mod2) / 2) * (1 - |size1 - size2| / (size1 + size2 + 1))`. -/
def opportunityScore (g : ClusterGraph) (c1 c2 : TopicCluster) : ℚ :=
  bridge_penalty g c1.id c2.id * ((c1.modularity + c2.modularity) / 2) *
    (1 - |c1.size - c2.size| / (c1.size + c2.size + 1))

/-- One result row of `find_structure_holes` (the representative keyword columns
are carried by the query but constrained by no claim, so they are omitted). -/
structure HoleRow where
  id_a : ℕ
  id_b : ℕ
  cluster_a : List Char
  cluster_b : List Char
  opportunity_score : ℚ
deriving DecidableEq

/-- All cluster pairs matched by `MATCH (tc1),(tc2) WHERE id(tc1) < id(tc2)`. -/
def clusterPairs (g : ClusterGraph) : List (TopicCluster × TopicCluster) :=
  g.clusters.flatMap fun c1 =>
    (g.clusters.filter fun c2 => c1.id < c2.id).map fun c2 => (c1, c2)

/-- The scored row of one cluster pair. -/
def holeRowOf (g : ClusterGraph) (p : TopicCluster × TopicCluster) : HoleRow :=
  ⟨p.1.id, p.2.id, p.1.name, p.2.name, opportunityScore g p.1 p.2⟩

/-- Descending order on opportunity score (the `ORDER BY opportunity_score DESC`). -/
def holeGE (a b : HoleRow) : Prop := b.opportunity_score ≤ a.opportunity_score

instance : DecidableRel holeGE := fun a b =>
  inferInstanceAs (Decidable (b.opportunity_score ≤ a.opportunity_score))

instance : IsTotal HoleRow holeGE :=
  ⟨fun a b => le_total b.opportunity_score a.opportunity_score⟩

instance : IsTrans HoleRow holeGE :=
  ⟨fun _ _ _ h1 h2 => le_trans h2 h1⟩

/-- The keywords belonging to the cluster with the given id
(the `OPTIONAL MATCH (k:Keyword)-[:BELONGS_TO]->(tc)` candidates). -/
def keywordsOf (g : ClusterGraph) (cid : ℕ) : List Keyword :=
  g.keywords.filter fun k => k.cluster = cid

/-- Expansion of each pair row by one of its clusters through `OPTIONAL MATCH`:
one row per matching keyword, or a single null-keyword row when none matches. -/
def expandRows (g : ClusterGraph) (pick : TopicCluster × TopicCluster → ℕ)
    (ps : List (TopicCluster × TopicCluster)) :
    List ((TopicCluster × TopicCluster) × Option Keyword) :=
  ps.flatMap fun p =>
    let ks := keywordsOf g (pick p)
    if ks.isEmpty then [(p, none)] else ks.map fun k => (p, some k)

/-- The sort key of `ORDER BY k.betweenness DESC`: a null keyword sorts first in
a descending order (Cypher treats null as largest), hence `⊤`. -/
def btwKey : Option Keyword → WithTop ℚ
  | none => ⊤
  | some k => (k.betweenness : WithTop ℚ)

/-- Descending order on the keyword-betweenness sort key of a row. -/
def pairRowGE (a b : (TopicCluster × TopicCluster) × Option Keyword) : Prop :=
  btwKey b.2 ≤ btwKey a.2

instance : DecidableRel pairRowGE := fun a b =>
  inferInstanceAs (Decidable (btwKey b.2 ≤ btwKey a.2))

instance : IsTotal ((TopicCluster × TopicCluster) × Option Keyword) pairRowGE :=
  ⟨fun a b => le_total (btwKey b.2) (btwKey a.2)⟩

instance : IsTrans ((TopicCluster × TopicCluster) × Option Keyword) pairRowGE :=
  ⟨fun _ _ _ h1 h2 => le_trans h2 h1⟩

/-- Drop duplicates keeping the first occurrence of each element. -/
def dedupFirst {α : Type} [DecidableEq α] : List α → List α
  | [] => []
  | a :: rest => a :: ((dedupFirst rest).filter fun b => b ≠ a)

/-- One `WITH ... ORDER BY k.betweenness DESC LIMIT 5` stage followed by the
grouping `WITH tc1, tc2, collect(k)`: the whole row stream is sorted by keyword
betweenness descending (stable sort, null first), truncated to 5 rows globally,
and the surviving rows are grouped back to their distinct cluster pairs in
first-occurrence order. -/
def stagePairs (rows : List ((TopicCluster × TopicCluster) × Option Keyword)) :
    List (TopicCluster × TopicCluster) :=
  dedupFirst (((List.insertionSort pairRowGE rows).take 5).map Prod.fst)

/-- The cluster pairs that survive the two global top-5-by-betweenness stream
truncations of the query and reach the scoring step: expand by the keywords of
`tc1`, sort/limit/collect, then expand by the keywords of `tc2`, sort/limit/
collect again. At most 5 pairs survive, selected by keyword betweenness. -/
def survivingPairs (g : ClusterGraph) : List (TopicCluster × TopicCluster) :=
  stagePairs (expandRows g (fun p => p.2.id)
    (stagePairs (expandRows g (fun p => p.1.id) (clusterPairs g))))

/-- The scored rows of the pairs that reach the scoring step. -/
def holeCandidates (g : ClusterGraph) : List HoleRow :=
  (survivingPairs g).map (holeRowOf g)

/-- The rows passing the `WHERE opportunity_score >= $min_score` filter. -/
def qualifiedHoles (g : ClusterGraph) (min_score : ℚ) : List HoleRow :=
  (holeCandidates g).filter fun r => min_score ≤ r.opportunity_score

/-- Embedding of `GEOQueries.find_structure_holes`: of the id-ordered cluster
pairs, only those surviving the two global top-5 keyword-betweenness
truncations are scored; those with score at least `min_score` are kept, ordered
by score descending, truncated to `limit`. -/
def find_structure_holes (g : ClusterGraph) (min_score : ℚ) (limit : ℕ) : List HoleRow :=
  (List.insertionSort holeGE (qualifiedHoles g min_score)).take limit

/-- The result the original claim predicts (a definition following the claim
text, for comparison with the program): every id-ordered pair is scored and
every pair clearing the threshold is returned. -/
def specQualifiedRows (g : ClusterGraph) (min_score : ℚ) : List HoleRow :=
  ((clusterPairs g).map (holeRowOf g)).filter fun r => min_score ≤ r.opportunity_score

/-! ### Prompt prioritization (`cypher_queries.py`, `rank_prompts_by_priority`) -/

/-- A `Prompt` node together with the graph context the ranking query gathers:
the score of the associated gap (if any), the severity of the associated pain point
(if any), and the count of existing assets derived from it. -/
structure PromptContext where
  text : List Char
  type : List Char
  base_priority : ℚ
  gap_score : Option ℚ
  pain_severity : Option ℚ
  existing_assets : ℕ
deriving DecidableEq

/-- One result row of `rank_prompts_by_priority`. -/
structure PromptRow where
  prompt_text : List Char
  prompt_type : List Char
  final_score : ℚ
deriving DecidableEq

/-- The composite priority score:
`0.4*gap + 0.3*pain + 0.2*novelty + 0.1*(base_priority/10)` with the defaults
of the query (`COALESCE(gap_score, 0.5)`, `COALESCE(pain_severity, 5.0)/10`,
`1/(existing_assets+1)`). -/
def promptFinalScore (p : PromptContext) : ℚ :=
  p.gap_score.getD (1/2) * (4/10) +
    p.pain_severity.getD 5 / 10 * (3/10) +
    1 / ((p.existing_assets : ℚ) + 1) * (2/10) +
    p.base_priority / 10 * (1/10)

/-- Descending order on final score. -/
def promptGE (a b : PromptRow) : Prop := b.final_score ≤ a.final_score

instance : DecidableRel promptGE := fun a b =>
  inferInstanceAs (Decidable (b.final_score ≤ a.final_score))

instance : IsTotal PromptRow promptGE :=
  ⟨fun a b => le_total b.final_score a.final_score⟩

instance : IsTrans PromptRow promptGE :=
  ⟨fun _ _ _ h1 h2 => le_trans h2 h1⟩

/-- Embedding of `GEOQueries.rank_prompts_by_priority`: score every prompt,
order by final score descending, truncate to `limit`. -/
def rank_prompts_by_priority (prompts : List PromptContext) (limit : ℕ) : List PromptRow :=
  (List.insertionSort promptGE
    (prompts.map fun p => ⟨p.text, p.type, promptFinalScore p⟩)).take limit

/-! ### Citation-ready scoring (`cypher_queries.py`, `calculate_citation_ready_score`) -/

/-- An `Asset` node (only the fields the scoring query touches). -/
structure Asset where
  id : List Char
  citation_ready_score : Option ℚ
deriving DecidableEq

/-- An asset together with the aggregates the query computes for it:
distinct mention count, distinct evidence count, and the average evidence
credibility (`none` when the asset has no evidence rows). -/
structure AssetStats where
  asset : Asset
  mention_count : ℕ
  evidence_count : ℕ
  avg_evidence_credibility : Option ℚ
deriving DecidableEq

/-- `connectivity_score = mention_count / 10.0` (no clamp). -/
def connectivity_score (mention_count : ℕ) : ℚ := (mention_count : ℚ) / 10

/-- `evidence_score = (evidence_count / 5.0) * COALESCE(avg_evidence_credibility, 0.5)`. -/
def evidence_score (evidence_count : ℕ) (avg_cred : Option ℚ) : ℚ :=
  (evidence_count : ℚ) / 5 * avg_cred.getD (1/2)

/-- `citation_ready_score = 0.6 * connectivity_score + 0.4 * evidence_score`. -/
def citation_ready_score (mention_count evidence_count : ℕ) (avg_cred : Option ℚ) : ℚ :=
  6/10 * connectivity_score mention_count + 4/10 * evidence_score evidence_count avg_cred

/-- The quality band of the CASE expression of the query. -/
def quality_rating (s : ℚ) : List Char :=
  if 8/10 ≤ s then "Excellent".data
  else if 6/10 ≤ s then "Good".data
  else if 4/10 ≤ s then "Fair".data
  else "Needs Improvement".data

/-- One result row of `calculate_citation_ready_score`, paired with the updated
asset node (the `SET asset.citation_ready_score = ...` write-back). -/
structure ScoredAsset where
  asset : Asset
  citation_score : ℚ
  rating : List Char
deriving DecidableEq

/-- Score one asset: compute the score, write it back onto the node, band it. -/
def scoreAsset (a : AssetStats) : ScoredAsset :=
  let s := citation_ready_score a.mention_count a.evidence_count a.avg_evidence_credibility
  ⟨{ a.asset with citation_ready_score := some s }, s, quality_rating s⟩

/-- Descending order on citation score. -/
def scoredGE (a b : ScoredAsset) : Prop := b.citation_score ≤ a.citation_score

instance : DecidableRel scoredGE := fun a b =>
  inferInstanceAs (Decidable (b.citation_score ≤ a.citation_score))

instance : IsTotal ScoredAsset scoredGE :=
  ⟨fun a b => le_total b.citation_score a.citation_score⟩

instance : IsTrans ScoredAsset scoredGE :=
  ⟨fun _ _ _ h1 h2 => le_trans h2 h1⟩

/-- Embedding of `GEOQueries.calculate_citation_ready_score` over the assets the
`WHERE` clause selects: score and update each, order by score descending. -/
def calculate_citation_ready_score (assets : List AssetStats) : List ScoredAsset :=
  List.insertionSort scoredGE (assets.map scoreAsset)

/-! ### Gap derivation (`infranodus_client.py`, `InfraNodusClient.get_gaps`) -/

/-- The `Gap` dataclass of `infranodus_client.py`. -/
structure Gap where
  topic_a : List Char
  topic_b : List Char
  opportunity_score : ℚ
  bridging_keywords : List (List Char)
deriving DecidableEq

/-- One node of the upstream graph response, as `get_gaps` reads it:
`node.get("community", "default")` and `node.get("name", node.get("id", ""))`. -/
structure GraphNode where
  name : Option (List Char)
  id : Option (List Char)
  community : Option (List Char)
deriving DecidableEq

/-- The upstream graph response: an optional embedded gap list and the nodes. -/
structure GraphData where
  gaps : Option (List Gap)
  nodes : List GraphNode

/-- The member string recorded for a node. -/
def nodeMember (n : GraphNode) : List Char := n.name.getD (n.id.getD [])

/-- The community key recorded for a node. -/
def nodeCommunity (n : GraphNode) : List Char := n.community.getD ("default".data)

/-- Append a member under its community key, preserving Python-dict insertion
order: an existing key keeps its position, a new key goes to the end. -/
def insertMember (comm member : List Char) :
    List (List Char × List (List Char)) → List (List Char × List (List Char))
  | [] => [(comm, [member])]
  | (k, ms) :: rest =>
    if k = comm then (k, ms ++ [member]) :: rest
    else (k, ms) :: insertMember comm member rest

/-- The `communities_dict` built by `get_gaps` from the node list. -/
def communitiesDict (nodes : List GraphNode) : List (List Char × List (List Char)) :=
  nodes.foldl (fun d n => insertMember (nodeCommunity n) (nodeMember n) d) []

/-- All ordered pairs of earlier/later dict entries
(the `for i, comm_a ...: for comm_b in community_names[i+1:]` double loop). -/
def dictPairs (d : List (List Char × List (List Char))) :
    List ((List Char × List (List Char)) × (List Char × List (List Char))) :=
  match d with
  | [] => []
  | e :: rest => (rest.map fun e2 => (e, e2)) ++ dictPairs rest

/-- The gap derived from one community pair at the fallback tier: representative
keywords are the first 3 listed members of each community, joined by slashes;
the opportunity score is the fixed placeholder `0.75`; no bridging keywords. -/
def derivedGap (ma mb : List (List Char)) : Gap :=
  ⟨joinSep (" / ".data) (ma.take 3), joinSep (" / ".data) (mb.take 3), 3/4, []⟩

/-- Embedding of `InfraNodusClient.get_gaps`: prefer the embedded gap list; when
it is absent, derive one gap per pair of distinct communities whose first-3
member lists are both non-empty. -/
def get_gaps (g : GraphData) : List Gap :=
  match g.gaps with
  | some gs => gs
  | none =>
    (dictPairs (communitiesDict g.nodes)).filterMap fun p =>
      if !(p.1.2.take 3).isEmpty && !(p.2.2.take 3).isEmpty then
        some (derivedGap p.1.2 p.2.2)
      else
        none

/-! ### Prompt synthesis (`import_pipeline.py`, `generate_prompts_from_gaps`) -/

/-- One entry of the `prompts_data` batch the importer builds from the gaps. -/
structure PromptData where
  text : List Char
  type : List Char
  priority : ℕ
  gap_score : ℚ
  topic_a : List Char
  topic_b : List Char
deriving DecidableEq

/-- The prompt synthesized from one gap at 0-based position `i`. -/
def promptOfGap (i : ℕ) (gap : Gap) : PromptData :=
  ⟨"How are ".data ++ gap.topic_a ++ " and ".data ++ gap.topic_b ++ " related?".data,
    "exploratory".data, min (i + 1) 10, gap.opportunity_score, gap.topic_a, gap.topic_b⟩

/-- Embedding of `Neo4jImporter.generate_prompts_from_gaps`: one prompt per gap,
of type exploratory, priority `min(position, 10)` with 1-based position. -/
def generate_prompts_from_gaps (gaps : List Gap) : List PromptData :=
  gaps.enum.map fun p => promptOfGap p.1 p.2

/-! ### Shared helper lemmas -/

/-- A prefix of a sorted list is sorted. -/
theorem sorted_take {α : Type} {r : α → α → Prop} {l : List α}
    (h : List.Sorted r l) (n : ℕ) : List.Sorted r (l.take n) :=
  List.Pairwise.sublist (List.take_sublist n l) h

/-- Members of a truncated insertion sort are members of the original list. -/
theorem mem_of_mem_take_insertionSort {α : Type} (r : α → α → Prop) [DecidableRel r]
    {l : List α} {n : ℕ} {x : α} (hx : x ∈ (List.insertionSort r l).take n) : x ∈ l :=
  (List.mem_insertionSort r).mp ((List.take_sublist n _).subset hx)

/-! ### Claim theorems -/

/-- C2: `calculate_citation_ready_score` computes
`connectivity_score = mention_count / 10` with no upper clamp (it exceeds 1 at
20 mentions), `evidence_score = (evidence_count / 5) * avg_evidence_credibility`
with the average defaulting to `0.5` when absent, and
`citation_ready_score = 0.6*connectivity + 0.4*evidence`; the quality band is
Excellent iff score ≥ 0.8, Good iff 0.6 ≤ score < 0.8, Fair iff
0.4 ≤ score < 0.6, else Needs Improvement; the score is written back onto the
asset node; and the scenario `mention_count=5, evidence_count=3, avg=0.8`
yields exactly 0.492, band Fair. -/
theorem citation_score_spec :
    (∀ a : AssetStats,
        (scoreAsset a).citation_score =
          6/10 * ((a.mention_count : ℚ) / 10) +
            4/10 * ((a.evidence_count : ℚ) / 5 * a.avg_evidence_credibility.getD (1/2))) ∧
    (∀ a : AssetStats,
        (scoreAsset a).asset.citation_ready_score = some ((scoreAsset a).citation_score) ∧
          (scoreAsset a).asset.id = a.asset.id) ∧
    (∀ a : AssetStats, (scoreAsset a).rating = quality_rating ((scoreAsset a).citation_score)) ∧
    (∀ s : ℚ,
        (quality_rating s = "Excellent".data ↔ 8/10 ≤ s) ∧
        (quality_rating s = "Good".data ↔ 6/10 ≤ s ∧ s < 8/10) ∧
        (quality_rating s = "Fair".data ↔ 4/10 ≤ s ∧ s < 6/10) ∧
        (quality_rating s = "Needs Improvement".data ↔ s < 4/10)) ∧
    (1 : ℚ) < connectivity_score 20 ∧
    citation_ready_score 5 3 (some (8/10)) = 492/1000 ∧
    quality_rating (citation_ready_score 5 3 (some (8/10))) = "Fair".data := by
  refine ⟨?_, ?_, ?_, ?_, ?_, ?_, ?_⟩
  · intro a
    simp [scoreAsset, citation_ready_score, connectivity_score, evidence_score]
  · intro a
    exact ⟨rfl, rfl⟩
  · intro a
    rfl
  · intro s
    unfold quality_rating
    refine ⟨?_, ?_, ?_, ?_⟩ <;> split_ifs with h1 h2 h3 <;>
      first
        | exact iff_of_true rfl (by linarith)
        | exact iff_of_true rfl (by constructor <;> linarith)
        | exact iff_of_false (by decide) (by intro hc; linarith)
        | exact iff_of_false (by decide) (by rintro ⟨hc1, hc2⟩; linarith)
  · norm_num [connectivity_score]
  · norm_num [citation_ready_score, connectivity_score, evidence_score]
  · have h : citation_ready_score 5 3 (some (8/10)) = 492/1000 := by
      norm_num [citation_ready_score, connectivity_score, evidence_score]
    rw [h]
    norm_num [quality_rating]

/-- C3: `rank_prompts_by_priority` scores every prompt as
`0.4*gap + 0.3*pain + 0.2*novelty + 0.1*(base_priority/10)` with gap defaulting
to 0.5, pain being severity/10 defaulting to 0.5, and novelty
`1/(existing_assets+1)`; results are ordered by final score descending; and the
scenario `gap=0.9, severity=8, assets=0, base_priority=5` yields exactly 0.85. -/
theorem rank_prompts_spec :
    (∀ p : PromptContext,
        promptFinalScore p =
          4/10 * p.gap_score.getD (1/2) + 3/10 * (p.pain_severity.getD 5 / 10) +
            2/10 * (1 / ((p.existing_assets : ℚ) + 1)) + 1/10 * (p.base_priority / 10)) ∧
    (∀ p : PromptContext, p.gap_score = none → p.pain_severity = none →
        promptFinalScore p =
          4/10 * (1/2) + 3/10 * (1/2) +
            2/10 * (1 / ((p.existing_assets : ℚ) + 1)) + 1/10 * (p.base_priority / 10)) ∧
    (∀ (prompts : List PromptContext) (limit : ℕ),
        (rank_prompts_by_priority prompts limit).Sorted promptGE) ∧
    (∀ (prompts : List PromptContext) (limit : ℕ) (r : PromptRow),
        r ∈ rank_prompts_by_priority prompts limit →
          ∃ p ∈ prompts, r = ⟨p.text, p.type, promptFinalScore p⟩) ∧
    promptFinalScore ⟨[], [], 5, some (9/10), some 8, 0⟩ = 85/100 := by
  refine ⟨?_, ?_, ?_, ?_, ?_⟩
  · intro p
    unfold promptFinalScore
    ring
  · intro p h1 h2
    unfold promptFinalScore
    rw [h1, h2]
    norm_num
    ring
  · intro prompts limit
    exact sorted_take (List.sorted_insertionSort promptGE _) limit
  · intro prompts limit r hr
    have hr2 := mem_of_mem_take_insertionSort promptGE hr
    obtain ⟨p, hp, hpr⟩ := List.mem_map.mp hr2
    exact ⟨p, hp, hpr.symm⟩
  · norm_num [promptFinalScore]

/-- Witness for C3: the default components apply at a concrete prompt with no
gap and no pain point. -/
theorem rank_prompts_spec_witness :
    promptFinalScore ⟨[], [], 5, none, none, 0⟩ =
      4/10 * (1/2) + 3/10 * (1/2) +
        2/10 * (1 / (((0 : ℕ) : ℚ) + 1)) + 1/10 * ((5 : ℚ) / 10) :=
  rank_prompts_spec.2.1 ⟨[], [], 5, none, none, 0⟩ rfl rfl

/-- C8: `generate_prompts_from_gaps` creates exactly one prompt per gap, of type
exploratory, with the fixed relating-question text over the two gap topics,
gap_score equal to the opportunity score of the gap, and priority equal to the
1-based ingestion position capped at 10. -/
theorem generate_prompts_spec :
    ∀ (gaps : List Gap) (i : ℕ),
      (generate_prompts_from_gaps gaps).length = gaps.length ∧
      (generate_prompts_from_gaps gaps)[i]? = (gaps[i]?).map fun gap =>
        ⟨"How are ".data ++ gap.topic_a ++ " and ".data ++ gap.topic_b ++ " related?".data,
          "exploratory".data, min (i + 1) 10, gap.opportunity_score,
          gap.topic_a, gap.topic_b⟩ := by
  intro gaps i
  constructor
  · simp [generate_prompts_from_gaps, List.enum_length]
  · simp only [generate_prompts_from_gaps, List.getElem?_map, List.getElem?_enum]
    cases gaps[i]? <;> simp [promptOfGap]

/-- C4: `classify_question` is a total function testing the fixed phrase sets in
the fixed order FEATURE, PAIN_POINT, COMPARISON, EVIDENCE, HOW_TO,
RECOMMENDATION, first match winning, PRODUCT when nothing matches; and the
question matching both a FEATURE phrase and a PAIN_POINT phrase classifies as
FEATURE. -/
theorem classify_question_spec :
    (∀ q : List Char,
        (classify_question q = .feature ↔
          anyPhraseIn featurePhrases (toLowerStr q) = true) ∧
        (classify_question q = .pain_point ↔
          anyPhraseIn featurePhrases (toLowerStr q) = false ∧
            anyPhraseIn painPointPhrases (toLowerStr q) = true) ∧
        (classify_question q = .comparison ↔
          anyPhraseIn featurePhrases (toLowerStr q) = false ∧
            anyPhraseIn painPointPhrases (toLowerStr q) = false ∧
            anyPhraseIn comparisonPhrases (toLowerStr q) = true) ∧
        (classify_question q = .evidence ↔
          anyPhraseIn featurePhrases (toLowerStr q) = false ∧
            anyPhraseIn painPointPhrases (toLowerStr q) = false ∧
            anyPhraseIn comparisonPhrases (toLowerStr q) = false ∧
            anyPhraseIn evidencePhrases (toLowerStr q) = true) ∧
        (classify_question q = .how_to ↔
          anyPhraseIn featurePhrases (toLowerStr q) = false ∧
            anyPhraseIn painPointPhrases (toLowerStr q) = false ∧
            anyPhraseIn comparisonPhrases (toLowerStr q) = false ∧
            anyPhraseIn evidencePhrases (toLowerStr q) = false ∧
            anyPhraseIn howToPhrases (toLowerStr q) = true) ∧
        (classify_question q = .recommendation ↔
          anyPhraseIn featurePhrases (toLowerStr q) = false ∧
            anyPhraseIn painPointPhrases (toLowerStr q) = false ∧
            anyPhraseIn comparisonPhrases (toLowerStr q) = false ∧
            anyPhraseIn evidencePhrases (toLowerStr q) = false ∧
            anyPhraseIn howToPhrases (toLowerStr q) = false ∧
            anyPhraseIn recommendationPhrases (toLowerStr q) = true) ∧
        (classify_question q = .product ↔
          anyPhraseIn featurePhrases (toLowerStr q) = false ∧
            anyPhraseIn painPointPhrases (toLowerStr q) = false ∧
            anyPhraseIn comparisonPhrases (toLowerStr q) = false ∧
            anyPhraseIn evidencePhrases (toLowerStr q) = false ∧
            anyPhraseIn howToPhrases (toLowerStr q) = false ∧
            anyPhraseIn recommendationPhrases (toLowerStr q) = false)) ∧
    anyPhraseIn featurePhrases
      (toLowerStr ("What is the best way to fix back pain?".data)) = true ∧
    anyPhraseIn painPointPhrases
      (toLowerStr ("What is the best way to fix back pain?".data)) = true ∧
    classify_question ("What is the best way to fix back pain?".data) = .feature := by
  refine ⟨?_, by decide, by decide, by decide⟩
  intro q
  cases h1 : anyPhraseIn featurePhrases (toLowerStr q) <;>
    cases h2 : anyPhraseIn painPointPhrases (toLowerStr q) <;>
    cases h3 : anyPhraseIn comparisonPhrases (toLowerStr q) <;>
    cases h4 : anyPhraseIn evidencePhrases (toLowerStr q) <;>
    cases h5 : anyPhraseIn howToPhrases (toLowerStr q) <;>
    cases h6 : anyPhraseIn recommendationPhrases (toLowerStr q) <;>
    simp [classify_question, h1, h2, h3, h4, h5, h6]

/-- The two-cluster graph of the bridge-penalty scenario: modularity 0.8 and
0.6, equal sizes, no keywords, and an existing BRIDGES relationship. -/
def scenarioGraph : ClusterGraph :=
  ⟨[⟨0, "A".data, 8/10, 4⟩, ⟨1, "B".data, 6/10, 4⟩], [], [(0, 1)]⟩

/-- A member of `clusterPairs` is an id-ordered pair of clusters of the graph. -/
theorem mem_clusterPairs {g : ClusterGraph} {p : TopicCluster × TopicCluster}
    (hp : p ∈ clusterPairs g) :
    p.1 ∈ g.clusters ∧ p.2 ∈ g.clusters ∧ p.1.id < p.2.id := by
  simp only [clusterPairs, List.mem_flatMap, List.mem_map, List.mem_filter,
    decide_eq_true_eq] at hp
  obtain ⟨c1, hc1, c2, ⟨hc2, hlt⟩, hpe⟩ := hp
  rw [← hpe]
  exact ⟨hc1, hc2, hlt⟩

/-- Deduplication only keeps elements of the original list. -/
theorem mem_dedupFirst {α : Type} [DecidableEq α] {x : α} :
    ∀ {l : List α}, x ∈ dedupFirst l → x ∈ l := by
  intro l
  induction l with
  | nil => intro h; simp [dedupFirst] at h
  | cons a rest ih =>
    intro h
    simp only [dedupFirst, List.mem_cons] at h
    rcases h with rfl | h
    · exact List.mem_cons_self _ _
    · exact List.mem_cons_of_mem _ (ih (List.mem_filter.mp h).1)

/-- Deduplication does not lengthen a list. -/
theorem dedupFirst_length_le {α : Type} [DecidableEq α] :
    ∀ (l : List α), (dedupFirst l).length ≤ l.length := by
  intro l
  induction l with
  | nil => simp [dedupFirst]
  | cons a rest ih =>
    simp only [dedupFirst, List.length_cons]
    have h1 := List.length_filter_le (fun b => decide (b ≠ a)) (dedupFirst rest)
    omega

/-- A row of an `OPTIONAL MATCH` expansion carries a pair of the input list. -/
theorem mem_expandRows {g : ClusterGraph} {pick : TopicCluster × TopicCluster → ℕ}
    {ps : List (TopicCluster × TopicCluster)}
    {row : (TopicCluster × TopicCluster) × Option Keyword}
    (h : row ∈ expandRows g pick ps) : row.1 ∈ ps := by
  simp only [expandRows, List.mem_flatMap] at h
  obtain ⟨p, hp, hrow⟩ := h
  split_ifs at hrow
  · simp only [List.mem_singleton] at hrow
    rw [hrow]
    exact hp
  · obtain ⟨k, _, hke⟩ := List.mem_map.mp hrow
    rw [← hke]
    exact hp

/-- A pair surviving one sort/limit/collect stage came from one of its rows. -/
theorem mem_stagePairs {rows : List ((TopicCluster × TopicCluster) × Option Keyword)}
    {p : TopicCluster × TopicCluster} (hp : p ∈ stagePairs rows) :
    ∃ k, (p, k) ∈ rows := by
  obtain ⟨row, hrow, hfst⟩ := List.mem_map.mp (mem_dedupFirst hp)
  refine ⟨row.2, ?_⟩
  have hmem : row ∈ rows :=
    (List.mem_insertionSort pairRowGE).mp ((List.take_sublist _ _).subset hrow)
  rw [← hfst]
  exact hmem

/-- Each sort/limit/collect stage emits at most 5 pairs. -/
theorem stagePairs_length_le
    (rows : List ((TopicCluster × TopicCluster) × Option Keyword)) :
    (stagePairs rows).length ≤ 5 := by
  refine le_trans (dedupFirst_length_le _) ?_
  rw [List.length_map, List.length_take]
  exact min_le_left _ _

/-- Every surviving pair is one of the id-ordered cluster pairs. -/
theorem survivingPairs_subset (g : ClusterGraph) :
    ∀ p ∈ survivingPairs g, p ∈ clusterPairs g := by
  intro p hp
  obtain ⟨k2, h2⟩ := mem_stagePairs hp
  obtain ⟨k1, h1⟩ := mem_stagePairs (mem_expandRows h2)
  exact mem_expandRows h1

/-- At most 5 pairs ever reach the scoring step. -/
theorem survivingPairs_length_le (g : ClusterGraph) : (survivingPairs g).length ≤ 5 :=
  stagePairs_length_le _

/-- The global top-5 truncations cap the whole result at 5 rows. -/
theorem structure_holes_at_most_five (g : ClusterGraph) (thr : ℚ) (lim : ℕ) :
    (find_structure_holes g thr lim).length ≤ 5 := by
  have h1 : (find_structure_holes g thr lim).length ≤ (qualifiedHoles g thr).length := by
    unfold find_structure_holes
    rw [List.length_take, List.length_insertionSort]
    exact min_le_right _ _
  have h2 : (qualifiedHoles g thr).length ≤ (holeCandidates g).length := by
    unfold qualifiedHoles
    exact List.length_filter_le _ _
  have h3 : (holeCandidates g).length = (survivingPairs g).length := by
    unfold holeCandidates
    exact List.length_map _ _
  have h4 := survivingPairs_length_le g
  omega

/-- A row of `holeCandidates` comes from an id-ordered pair of clusters. -/
theorem mem_holeCandidates {g : ClusterGraph} {r : HoleRow} (hr : r ∈ holeCandidates g) :
    ∃ c1 ∈ g.clusters, ∃ c2 ∈ g.clusters, c1.id < c2.id ∧ r = holeRowOf g (c1, c2) := by
  obtain ⟨p, hp, hrow⟩ := List.mem_map.mp hr
  have h := mem_clusterPairs (survivingPairs_subset g p hp)
  exact ⟨p.1, h.1, p.2, h.2.1, h.2.2, by rw [← hrow]⟩

/-- Evaluation of the bridge-penalty scenario: the single cluster pair survives
both global truncations trivially and is returned with score exactly
`0.3 * 0.7 * 1.0 = 0.21`. -/
theorem scenario_eval :
    find_structure_holes scenarioGraph 0 10 = [⟨0, 1, "A".data, "B".data, 21/100⟩] := by
  norm_num [find_structure_holes, qualifiedHoles, holeCandidates, survivingPairs, stagePairs,
    expandRows, keywordsOf, dedupFirst, clusterPairs, scenarioGraph, holeRowOf,
    opportunityScore, bridge_penalty, hasBridge, List.insertionSort, List.orderedInsert,
    List.filter]

/-- A returned row of `find_structure_holes` is a qualified candidate row. -/
theorem mem_of_mem_find_structure_holes {g : ClusterGraph} {thr : ℚ} {lim : ℕ} {r : HoleRow}
    (hr : r ∈ find_structure_holes g thr lim) :
    r ∈ holeCandidates g ∧ thr ≤ r.opportunity_score := by
  have h2 := mem_of_mem_take_insertionSort holeGE hr
  simp only [qualifiedHoles, List.mem_filter, decide_eq_true_eq] at h2
  exact h2

/-- Six keyword-less clusters with equal modularity 1 and equal size 2, no
bridges: all 15 id-ordered pairs score 1 and clear any threshold up to 1. -/
def cexClusters : List TopicCluster :=
  [⟨0, "A".data, 1, 2⟩, ⟨1, "B".data, 1, 2⟩, ⟨2, "C".data, 1, 2⟩,
    ⟨3, "D".data, 1, 2⟩, ⟨4, "E".data, 1, 2⟩, ⟨5, "F".data, 1, 2⟩]

/-- The six-cluster graph of the C1 counterexample. -/
def cexHoleGraph : ClusterGraph := ⟨cexClusters, [], []⟩

/-- Every pair of counterexample clusters scores exactly 1. -/
theorem cex_score {c1 c2 : TopicCluster} (h1 : c1 ∈ cexClusters) (h2 : c2 ∈ cexClusters) :
    opportunityScore cexHoleGraph c1 c2 = 1 := by
  have f1 : c1.modularity = 1 ∧ c1.size = 2 := by
    simp only [cexClusters, List.mem_cons, List.not_mem_nil, or_false] at h1
    rcases h1 with rfl | rfl | rfl | rfl | rfl | rfl <;> exact ⟨rfl, rfl⟩
  have f2 : c2.modularity = 1 ∧ c2.size = 2 := by
    simp only [cexClusters, List.mem_cons, List.not_mem_nil, or_false] at h2
    rcases h2 with rfl | rfl | rfl | rfl | rfl | rfl <;> exact ⟨rfl, rfl⟩
  simp only [opportunityScore, bridge_penalty, hasBridge, cexHoleGraph, List.any_nil,
    Bool.false_eq_true, if_false, f1.1, f1.2, f2.1, f2.2]
  norm_num

/-- In the counterexample every one of the 15 id-ordered pairs clears the
threshold 0, so the claim predicts all 15 rows. -/
theorem cex_spec_rows :
    specQualifiedRows cexHoleGraph 0 =
      (clusterPairs cexHoleGraph).map (holeRowOf cexHoleGraph) := by
  unfold specQualifiedRows
  apply List.filter_eq_self.mpr
  intro r hr
  obtain ⟨p, hp, hrow⟩ := List.mem_map.mp hr
  have h := mem_clusterPairs hp
  simp only [decide_eq_true_eq]
  rw [← hrow]
  show (0 : ℚ) ≤ opportunityScore cexHoleGraph p.1 p.2
  rw [cex_score h.1 h.2.1]
  norm_num

/-- Counterexample to C1 as stated: with six keyword-less clusters all 15
id-ordered pairs clear threshold 0, but the two global
`ORDER BY k.betweenness DESC LIMIT 5` stream truncations of the query let at
most 5 pairs reach the scoring, so with limit 15 the program cannot return
every pair clearing the threshold and its result differs from the
claim-predicted sorted-and-truncated qualified list. -/
theorem structure_holes_limit_cex :
    (specQualifiedRows cexHoleGraph 0).length = 15 ∧
    (find_structure_holes cexHoleGraph 0 15).length ≤ 5 ∧
    find_structure_holes cexHoleGraph 0 15 ≠
      (List.insertionSort holeGE (specQualifiedRows cexHoleGraph 0)).take 15 := by
  have hlen : (specQualifiedRows cexHoleGraph 0).length = 15 := by
    rw [cex_spec_rows, List.length_map]
    decide
  refine ⟨hlen, structure_holes_at_most_five _ _ _, ?_⟩
  intro h
  have hc := congrArg List.length h
  rw [List.length_take, List.length_insertionSort, hlen] at hc
  have h5 := structure_holes_at_most_five cexHoleGraph 0 15
  omega

/-- C1 as amended: each pair of distinct clusters is scored as
`bridge_penalty * ((mod_A + mod_B)/2) * (1 - |size_A - size_B|/(size_A + size_B + 1))`
with penalty 1.0 when no BRIDGES relationship exists and 0.3 otherwise, but
only the id-ordered pairs surviving the two global top-5-by-keyword-betweenness
stream truncations reach the scoring (so at most 5 pairs, selected by keyword
betweenness rather than score, can be returned); among those surviving pairs
exactly the ones with score at least the caller-supplied threshold are
returned, ordered by score descending, truncated to the caller-supplied limit;
and two bridged clusters with modularity 0.8 and 0.6 and equal sizes (a single
pair, which survives trivially) return exactly 0.21. -/
theorem find_structure_holes_spec :
    (∀ (g : ClusterGraph) (c1 c2 : TopicCluster),
        opportunityScore g c1 c2 =
          (if hasBridge g c1.id c2.id then 3/10 else 1) *
            ((c1.modularity + c2.modularity) / 2) *
            (1 - |c1.size - c2.size| / (c1.size + c2.size + 1))) ∧
    (∀ g : ClusterGraph, ∀ p ∈ survivingPairs g, p ∈ clusterPairs g) ∧
    (∀ (g : ClusterGraph) (thr : ℚ) (lim : ℕ),
        ∀ r ∈ find_structure_holes g thr lim, thr ≤ r.opportunity_score) ∧
    (∀ (g : ClusterGraph) (thr : ℚ) (lim : ℕ),
        (find_structure_holes g thr lim).Sorted holeGE) ∧
    (∀ (g : ClusterGraph) (thr : ℚ) (lim : ℕ),
        (find_structure_holes g thr lim).length ≤ lim) ∧
    (∀ (g : ClusterGraph) (thr : ℚ) (lim : ℕ),
        (find_structure_holes g thr lim).length ≤ 5) ∧
    (∀ (g : ClusterGraph) (thr : ℚ) (lim : ℕ),
        (qualifiedHoles g thr).length ≤ lim →
          ∀ r : HoleRow, r ∈ find_structure_holes g thr lim ↔
            r ∈ holeCandidates g ∧ thr ≤ r.opportunity_score) ∧
    find_structure_holes scenarioGraph 0 10 = [⟨0, 1, "A".data, "B".data, 21/100⟩] := by
  refine ⟨?_, survivingPairs_subset, ?_, ?_, ?_, ?_, ?_, ?_⟩
  · intro g c1 c2
    simp [opportunityScore, bridge_penalty]
  · intro g thr lim r hr
    exact (mem_of_mem_find_structure_holes hr).2
  · intro g thr lim
    exact sorted_take (List.sorted_insertionSort holeGE _) lim
  · intro g thr lim
    unfold find_structure_holes
    rw [List.length_take]
    exact min_le_left _ _
  · intro g thr lim
    exact structure_holes_at_most_five g thr lim
  · intro g thr lim hlen r
    unfold find_structure_holes
    rw [List.take_of_length_le (by rw [List.length_insertionSort]; exact hlen),
      List.mem_insertionSort]
    simp [qualifiedHoles, List.mem_filter]
  · exact scenario_eval

/-- Witness for C1: in the bridge-penalty scenario every returned row clears the
threshold 0. -/
theorem find_structure_holes_spec_witness :
    (0 : ℚ) ≤ (HoleRow.mk 0 1 ("A".data) ("B".data) (21/100)).opportunity_score :=
  find_structure_holes_spec.2.2.1 scenarioGraph 0 10 _
    (by rw [scenario_eval]; exact List.mem_singleton_self _)

/-- C9: `find_structure_holes` never returns the same unordered cluster pair in
opposite orders: every returned row is id-ordered, so when cluster names
determine cluster ids (the unique-name invariant of TopicCluster nodes), no
returned pair of rows is mutually reversed. -/
theorem gap_symmetry_spec :
    (∀ (g : ClusterGraph) (thr : ℚ) (lim : ℕ),
        ∀ r ∈ find_structure_holes g thr lim, r.id_a < r.id_b) ∧
    (∀ (g : ClusterGraph) (thr : ℚ) (lim : ℕ),
        (∀ c1 ∈ g.clusters, ∀ c2 ∈ g.clusters, c1.name = c2.name → c1.id = c2.id) →
          ∀ r ∈ find_structure_holes g thr lim, ∀ r' ∈ find_structure_holes g thr lim,
            ¬(r.cluster_a = r'.cluster_b ∧ r.cluster_b = r'.cluster_a)) := by
  constructor
  · intro g thr lim r hr
    obtain ⟨c1, _, c2, _, hlt, hrow⟩ :=
      mem_holeCandidates (mem_of_mem_find_structure_holes hr).1
    rw [hrow]
    exact hlt
  · intro g thr lim hinj r hr r' hr'
    rintro ⟨hab, hba⟩
    obtain ⟨c1, hc1, c2, hc2, hlt, hrow⟩ :=
      mem_holeCandidates (mem_of_mem_find_structure_holes hr).1
    obtain ⟨d1, hd1, d2, hd2, hlt', hrow'⟩ :=
      mem_holeCandidates (mem_of_mem_find_structure_holes hr').1
    rw [hrow, hrow'] at hab hba
    simp only [holeRowOf] at hab hba
    have e1 : c1.id = d2.id := hinj c1 hc1 d2 hd2 hab
    have e2 : c2.id = d1.id := hinj c2 hc2 d1 hd1 hba
    omega

/-- Witness for C9: the scenario row is id-ordered. -/
theorem gap_symmetry_spec_witness :
    (HoleRow.mk 0 1 ("A".data) ("B".data) (21/100)).id_a <
      (HoleRow.mk 0 1 ("A".data) ("B".data) (21/100)).id_b :=
  gap_symmetry_spec.1 scenarioGraph 0 10 _
    (by rw [scenario_eval]; exact List.mem_singleton_self _)

/-- Inserting a member keeps every member list of the dict non-empty. -/
theorem mem_insertMember_ne_nil (c m : List Char) :
    ∀ (d : List (List Char × List (List Char))), (∀ e ∈ d, e.2 ≠ []) →
      ∀ e ∈ insertMember c m d, e.2 ≠ [] := by
  intro d
  induction d with
  | nil =>
    intro _ e he
    simp only [insertMember, List.mem_singleton] at he
    simp [he]
  | cons p rest ih =>
    obtain ⟨k, ms⟩ := p
    intro hd e he
    simp only [insertMember] at he
    split_ifs at he with hk
    · rcases List.mem_cons.mp he with h1 | h1
      · rw [h1]
        simp
      · exact hd _ (List.mem_cons_of_mem _ h1)
    · rcases List.mem_cons.mp he with h1 | h1
      · rw [h1]
        exact hd (k, ms) (List.mem_cons_self _ _)
      · exact ih (fun e' he' => hd e' (List.mem_cons_of_mem _ he')) e h1

/-- Every community of the dict built by `get_gaps` has at least one member. -/
theorem communitiesDict_ne_nil (nodes : List GraphNode) :
    ∀ e ∈ communitiesDict nodes, e.2 ≠ [] := by
  suffices h : ∀ (d : List (List Char × List (List Char))), (∀ e ∈ d, e.2 ≠ []) →
      ∀ e ∈ nodes.foldl (fun d n => insertMember (nodeCommunity n) (nodeMember n) d) d,
        e.2 ≠ [] by
    exact h [] (by simp)
  induction nodes with
  | nil =>
    intro d hd e he
    simpa using hd e (by simpa using he)
  | cons n rest ih =>
    intro d hd e he
    simp only [List.foldl_cons] at he
    exact ih _ (mem_insertMember_ne_nil _ _ d hd) e he

/-- Both components of a dict pair are dict entries. -/
theorem mem_dictPairs {d : List (List Char × List (List Char))}
    {p : (List Char × List (List Char)) × (List Char × List (List Char))}
    (hp : p ∈ dictPairs d) : p.1 ∈ d ∧ p.2 ∈ d := by
  induction d with
  | nil => simp [dictPairs] at hp
  | cons e rest ih =>
    simp only [dictPairs, List.mem_append, List.mem_map] at hp
    rcases hp with ⟨e2, he2, hpe⟩ | hp2
    · rw [← hpe]
      exact ⟨List.mem_cons_self _ _, List.mem_cons_of_mem _ he2⟩
    · exact ⟨List.mem_cons_of_mem _ (ih hp2).1, List.mem_cons_of_mem _ (ih hp2).2⟩

/-- A `filterMap` whose function always succeeds is a `map`. -/
theorem filterMap_eq_map_of_forall {α β : Type} (f : α → Option β) (g : α → β) :
    ∀ (l : List α), (∀ a ∈ l, f a = some (g a)) → l.filterMap f = l.map g := by
  intro l
  induction l with
  | nil => intro _; rfl
  | cons a rest ih =>
    intro h
    simp [List.filterMap_cons, h a (List.mem_cons_self _ _),
      ih fun b hb => h b (List.mem_cons_of_mem _ hb)]

/-- A three-node upstream response with two communities and no embedded gaps. -/
def exampleGraphData : GraphData :=
  ⟨none,
    [⟨some ("a".data), none, some ("c1".data)⟩,
      ⟨some ("b".data), none, some ("c1".data)⟩,
      ⟨some ("x".data), none, some ("c2".data)⟩]⟩

/-- C7: when the upstream response has no embedded gap list, `get_gaps` derives
one gap per unordered pair of distinct communities present among the nodes
(whose member lists are necessarily non-empty), each with opportunity score
fixed at 0.75, representative keywords the first 3 listed members of each
community, and no bridging keywords. -/
theorem get_gaps_spec :
    (∀ g : GraphData, g.gaps = none →
        get_gaps g = (dictPairs (communitiesDict g.nodes)).map fun p =>
          ⟨joinSep (" / ".data) (p.1.2.take 3), joinSep (" / ".data) (p.2.2.take 3),
            3/4, []⟩) ∧
    (∀ g : GraphData, g.gaps = none →
        ∀ gap ∈ get_gaps g, gap.opportunity_score = 3/4 ∧ gap.bridging_keywords = []) ∧
    get_gaps exampleGraphData = [⟨"a / b".data, "x".data, 3/4, []⟩] := by
  have key : ∀ g : GraphData, g.gaps = none →
      get_gaps g = (dictPairs (communitiesDict g.nodes)).map fun p =>
        ⟨joinSep (" / ".data) (p.1.2.take 3), joinSep (" / ".data) (p.2.2.take 3),
          3/4, []⟩ := by
    intro g hg
    simp only [get_gaps, hg]
    apply filterMap_eq_map_of_forall
    intro p hp
    have hmem := mem_dictPairs hp
    have h1 := communitiesDict_ne_nil g.nodes _ hmem.1
    have h2 := communitiesDict_ne_nil g.nodes _ hmem.2
    have c1 : (p.1.2.take 3).isEmpty = false := by
      cases hl : p.1.2 with
      | nil => exact absurd hl h1
      | cons a l => simp [hl]
    have c2 : (p.2.2.take 3).isEmpty = false := by
      cases hl : p.2.2 with
      | nil => exact absurd hl h2
      | cons a l => simp [hl]
    rw [if_pos (by rw [c1, c2]; rfl)]
    rfl
  refine ⟨key, ?_, ?_⟩
  · intro g hg gap hgap
    rw [key g hg] at hgap
    obtain ⟨p, _, hpg⟩ := List.mem_map.mp hgap
    rw [← hpg]
    exact ⟨rfl, rfl⟩
  · rfl

/-- Witness for C7: the derived-gap map equation at the three-node example. -/
theorem get_gaps_spec_witness :
    get_gaps exampleGraphData =
      (dictPairs (communitiesDict exampleGraphData.nodes)).map fun p =>
        ⟨joinSep (" / ".data) (p.1.2.take 3), joinSep (" / ".data) (p.2.2.take 3),
          3/4, []⟩ :=
  get_gaps_spec.1 exampleGraphData rfl

/-! ### Retrieval seeding: the specified rule versus the code (C5) -/

/-- The seed-keyword rule as the specification states it: the
whitespace-separated words of the question whose length is greater than 3. -/
def specSeedKeywords (q : List Char) : List (List Char) :=
  (splitWs q).filter fun w => 3 < w.length

/-- The retrieval rule as the specification states it: try the seed keywords in
order of appearance and use the first whose query yields a non-empty result. -/
def specSeedRetrieve {α : Type} (f : List Char → Option α) (q : List Char) : Option α :=
  firstHit f (specSeedKeywords q)

/-- A database with no data at all. -/
def noneDB : GraphDB :=
  ⟨fun _ => none, fun _ => none, fun _ _ => none, fun _ => none⟩

/-- The evidence question of the C5 counterexample. -/
def cexQuestion : List Char := "What evidence supports gels".data

/-- The row the counterexample database serves for the keyword `What`. -/
def cexFeatureData : FeatureData := ⟨"x".data, none, [], [], []⟩

/-- A database whose evidence query answers only the keyword `What` (a word of
length 4, i.e. greater than 3 but not greater than 4). -/
def cexDB : GraphDB :=
  { featureQuery := fun _ => none
    painQuery := fun _ => none
    comparisonQuery := fun _ _ => none
    evidenceQuery := fun k => if k = "What".data then some cexFeatureData else none }

/-- Counterexample to C5: for the EVIDENCE question `What evidence supports
gels`, the specified retrieval (words of length > 3, first non-empty result)
would find the row served for `What` and answer with confidence 0.4, but the
code filters EVIDENCE keywords by length > 4 and queries only the first one,
here `evidence`, which yields nothing, so `answer_question` returns the no-data
fallback with confidence 0. -/
theorem retrieval_seed_cex :
    classify_question cexQuestion = QuestionType.evidence ∧
    specSeedKeywords cexQuestion =
      ["What".data, "evidence".data, "supports".data, "gels".data] ∧
    evidenceKeywords cexQuestion = ["evidence".data, "supports".data] ∧
    specSeedRetrieve cexDB.evidenceQuery cexQuestion = some cexFeatureData ∧
    (answer_question cexDB cexQuestion).answer_text = featureFallbackText ∧
    (answer_question cexDB cexQuestion).confidence = 0 ∧
    (generate_feature_answer (specSeedRetrieve cexDB.evidenceQuery cexQuestion)).confidence
      = 2/5 ∧
    answer_question cexDB cexQuestion ≠
      { generate_feature_answer (specSeedRetrieve cexDB.evidenceQuery cexQuestion) with
          question := cexQuestion } := by
  refine ⟨by decide, by decide, by decide, rfl, rfl, rfl, ?_, ?_⟩
  · show (generate_feature_answer (some cexFeatureData)).confidence = 2/5
    norm_num [generate_feature_answer, featureCitations, cexFeatureData]
  · intro h
    have hc := congrArg Answer.confidence h
    have h1 : (answer_question cexDB cexQuestion).confidence = 0 := rfl
    have h2 : (generate_feature_answer (specSeedRetrieve cexDB.evidenceQuery
        cexQuestion)).confidence = 2/5 := by
      show (generate_feature_answer (some cexFeatureData)).confidence = 2/5
      norm_num [generate_feature_answer, featureCitations, cexFeatureData]
    rw [h1] at hc
    rw [show ({ generate_feature_answer (specSeedRetrieve cexDB.evidenceQuery cexQuestion)
        with question := cexQuestion } : Answer).confidence =
      (generate_feature_answer (specSeedRetrieve cexDB.evidenceQuery
        cexQuestion)).confidence from rfl, h2] at hc
    norm_num at hc

/-- C5 as amended: FEATURE and PAIN_POINT questions are retrieved exactly by the
specified rule (words of length > 3, first keyword with a non-empty result);
EVIDENCE questions instead use the words of length > 4 and query only the first
such keyword, regardless of whether its result is empty. -/
theorem retrieval_seed_amended :
    (∀ (db : GraphDB) (q : List Char),
        retrieve_feature_info db q = specSeedRetrieve db.featureQuery q) ∧
    (∀ (db : GraphDB) (q : List Char),
        retrieve_pain_point_solution db q = specSeedRetrieve db.painQuery q) ∧
    (∀ (db : GraphDB) (q : List Char), classify_question q = .feature →
        answer_question db q =
          { generate_feature_answer (specSeedRetrieve db.featureQuery q) with
              question := q }) ∧
    (∀ (db : GraphDB) (q : List Char), classify_question q = .pain_point →
        answer_question db q =
          { generate_pain_point_answer (specSeedRetrieve db.painQuery q) with
              question := q }) ∧
    (∀ (db : GraphDB) (q : List Char), classify_question q = .evidence →
        answer_question db q =
          { generate_feature_answer (db.evidenceQuery ((evidenceKeywords q).headD []))
              with question := q }) ∧
    (∀ q : List Char, evidenceKeywords q = (splitWs q).filter fun w => 4 < w.length) := by
  refine ⟨fun _ _ => rfl, fun _ _ => rfl, ?_, ?_, ?_, fun _ => rfl⟩
  · intro db q h
    simp [answer_question, h]
    exact ⟨rfl, rfl, rfl, rfl⟩
  · intro db q h
    simp [answer_question, h]
    exact ⟨rfl, rfl, rfl, rfl⟩
  · intro db q h
    simp [answer_question, h]
    exact ⟨rfl, rfl, rfl, rfl⟩

/-- Witness for the amended C5: the FEATURE pipeline equation at a concrete
question against the empty database. -/
theorem retrieval_seed_amended_witness :
    answer_question noneDB ("What is cooling gel".data) =
      { generate_feature_answer
          (specSeedRetrieve noneDB.featureQuery ("What is cooling gel".data)) with
        question := "What is cooling gel".data } :=
  retrieval_seed_amended.2.2.1 noneDB ("What is cooling gel".data) (by decide)

/-! ### Fallback answers (C6) and answer invariants (C10) -/

/-- C6: when retrieval yields no record, FEATURE and PAIN_POINT questions get
their fixed no-data fallback text with confidence exactly 0; a COMPARISON
question with fewer than two extractable product names gets the fixed
specify-two-products message with confidence 0 (and no exception, the pipeline
being a total function); and the final unhandled-category fallback answer
carries confidence exactly 0.2. -/
theorem fallback_spec :
    (∀ (db : GraphDB) (q : List Char), classify_question q = .feature →
        retrieve_feature_info db q = none →
        answer_question db q = ⟨q, featureFallbackText, [], 0, []⟩) ∧
    (∀ (db : GraphDB) (q : List Char), classify_question q = .pain_point →
        retrieve_pain_point_solution db q = none →
        answer_question db q = ⟨q, painFallbackText, [], 0, []⟩) ∧
    (∀ (db : GraphDB) (q : List Char), classify_question q = .comparison →
        (extractProducts q).length < 2 →
        answer_question db q =
          ⟨q, "Please specify two products to compare.".data, [], 0, []⟩) ∧
    (∀ q : List Char, (unclassifiableFallback q).confidence = 2/10 ∧
        (unclassifiableFallback q).citations = []) := by
  refine ⟨?_, ?_, ?_, fun q => ⟨rfl, rfl⟩⟩
  · intro db q h hr
    simp [answer_question, h, hr, generate_feature_answer]
  · intro db q h hr
    simp [answer_question, h, hr, generate_pain_point_answer]
  · intro db q h hp
    rcases he : extractProducts q with _ | ⟨p1, tl⟩
    · simp [answer_question, h, he, comparisonSpecifyAnswer]
    · rcases tl with _ | ⟨p2, tl2⟩
      · simp [answer_question, h, he, comparisonSpecifyAnswer]
      · rw [he] at hp
        simp at hp
        omega

/-- Witness for C6: the FEATURE no-data fallback at a concrete question against
the empty database. -/
theorem fallback_spec_witness :
    answer_question noneDB ("Explain cooling technology".data) =
      ⟨"Explain cooling technology".data, featureFallbackText, [], 0, []⟩ :=
  fallback_spec.1 noneDB ("Explain cooling technology".data) (by decide) rfl

/-- The feature-answer invariant: at most 3 citations, confidence in [0, 1]. -/
theorem feature_answer_invariant (data : Option FeatureData) :
    (generate_feature_answer data).citations.length ≤ 3 ∧
    0 ≤ (generate_feature_answer data).confidence ∧
    (generate_feature_answer data).confidence ≤ 1 := by
  cases data with
  | none => norm_num [generate_feature_answer]
  | some d =>
    refine ⟨?_, ?_, ?_⟩
    · show ((featureCitations d).take 3).length ≤ 3
      rw [List.length_take]
      exact min_le_left _ _
    · show (0 : ℚ) ≤ min 1 (((featureCitations d).length : ℚ) * (3/10) + 4/10)
      apply le_min (by norm_num)
      positivity
    · exact min_le_left _ _

/-- The pain-point-answer invariant: at most 3 citations, confidence in [0, 1]. -/
theorem pain_answer_invariant (data : Option PainData) :
    (generate_pain_point_answer data).citations.length ≤ 3 ∧
    0 ≤ (generate_pain_point_answer data).confidence ∧
    (generate_pain_point_answer data).confidence ≤ 1 := by
  cases data with
  | none => norm_num [generate_pain_point_answer]
  | some d =>
    refine ⟨?_, ?_, ?_⟩
    · show ((painCitations d).take 3).length ≤ 3
      rw [List.length_take]
      exact min_le_left _ _
    · show (0 : ℚ) ≤ min 1 ((d.solutions.length : ℚ) * (3/10) +
        ((painCitations d).length : ℚ) * (2/10) + 2/10)
      apply le_min (by norm_num)
      positivity
    · exact min_le_left _ _

/-- The comparison-answer invariant: no citations, confidence in [0, 1]. -/
theorem comparison_answer_invariant (data : Option ComparisonData) :
    (generate_comparison_answer data).citations.length ≤ 3 ∧
    0 ≤ (generate_comparison_answer data).confidence ∧
    (generate_comparison_answer data).confidence ≤ 1 := by
  cases data with
  | none => norm_num [generate_comparison_answer]
  | some d =>
    simp only [generate_comparison_answer]
    split_ifs <;> norm_num

/-- C10: every answer of `answer_question` carries at most 3 citations and a
confidence in [0, 1]; data-present feature answers use
`min(1, citations*0.3 + 0.4)`, data-present pain-point answers use
`min(1, solutions*0.3 + citations*0.2 + 0.2)`, comparison answers use the
constants 0.7 (data with unique features) or 0.3 (otherwise), and the fallback
branches use the constants 0 or 0.2. -/
theorem answer_invariants :
    (∀ (db : GraphDB) (q : List Char),
        (answer_question db q).citations.length ≤ 3 ∧
        0 ≤ (answer_question db q).confidence ∧
        (answer_question db q).confidence ≤ 1) ∧
    (∀ d : FeatureData, (generate_feature_answer (some d)).confidence =
        min 1 (((featureCitations d).length : ℚ) * (3/10) + 4/10)) ∧
    (∀ d : PainData, (generate_pain_point_answer (some d)).confidence =
        min 1 ((d.solutions.length : ℚ) * (3/10) +
          ((painCitations d).length : ℚ) * (2/10) + 2/10)) ∧
    (∀ d : ComparisonData, d.unique_to_us.isEmpty = false →
        (generate_comparison_answer (some d)).confidence = 7/10) ∧
    (∀ d : ComparisonData, d.unique_to_us.isEmpty = true →
        (generate_comparison_answer (some d)).confidence = 3/10) ∧
    (generate_comparison_answer none).confidence = 3/10 := by
  refine ⟨?_, fun d => rfl, fun d => rfl, ?_, ?_, rfl⟩
  · intro db q
    simp only [answer_question]
    split_ifs with h1 h2 h3 h4 h5
    · exact feature_answer_invariant _
    · exact pain_answer_invariant _
    · rcases extractProducts q with _ | ⟨p1, _ | ⟨p2, tl2⟩⟩
      · norm_num [comparisonSpecifyAnswer]
      · norm_num [comparisonSpecifyAnswer]
      · exact comparison_answer_invariant _
    · exact feature_answer_invariant _
    · exact pain_answer_invariant _
    · norm_num [unclassifiableFallback]
  · intro d h
    simp [generate_comparison_answer, h]
  · intro d h
    simp [generate_comparison_answer, h]

/-- Witness for C10: the comparison confidence constant 0.7 at a concrete row
with a unique feature. -/
theorem answer_invariants_witness :
    (generate_comparison_answer (some ⟨["f".data], [], [], 1, 0⟩)).confidence = 7/10 :=
  answer_invariants.2.2.2.1 ⟨["f".data], [], [], 1, 0⟩ rfl

end Geo
